import Mathlib

/-!
Verification of the isolate execution bridge (`src/isolate.rs`).

The subject file owns a non-shareable script-engine handle and bridges it to
multithreaded asynchronous work: a `Dispatch` function classifies each request
as synchronous or asynchronous, asynchronous completions travel back over an
mpsc channel, and `event_loop` drains that channel while tracking an
outstanding-task counter and an optional wake deadline.

Shallow embedding conventions:
* `Buf` (Rust `Box<[u8]>`) is a list of byte values.
* Calls into the engine (`libdeno::deno_respond`) are modelled by appending the
  `(req_id, buf)` pair to a `respond_log` field on the `Isolate` record.
* Rust panics and failed `assert!`s are modelled by returning `none`.
* An `Op` future is modelled by its eventual single resolution,
  `Except String Buf` (Rust `Result<Buf, DenoError>`).
* The blocking receives of `event_loop` are driven by an explicit arrival
  schedule: each loop iteration consumes one `ChanEvent` describing what the
  channel wait observed (a message, nothing before the wait ended, or a
  disconnected channel), together with the `Instant::now()` value (a `Nat`).
-/

namespace DenoIsolate

/-- Byte buffer: Rust `pub type Buf = Box<[u8]>`. -/
abbrev Buf := List Nat

/-- Eventual resolution of an `Op` future (`Future<Item = Buf, Error = DenoError>`):
either a result buffer or an error, the error carried as its message text. -/
abbrev OpResult := Except String Buf

/-- Model of `struct Isolate` (the fields the claims concern): the signed
outstanding-task counter `ntasks : i32`, the optional wake deadline
`timeout_due : Option<Instant>` (instants as `Nat`), and `respond_log`, the
ordered log of `libdeno::deno_respond` calls standing in for the opaque
engine handle. The channel receiver `rx` is modelled by the arrival schedule
fed to `event_loop`. -/
structure Isolate where
  ntasks : Int
  timeout_due : Option Nat
  respond_log : List (Int × Buf)
deriving DecidableEq, Repr

/-- Model of `struct IsolateState` (the fields the claims concern): the
producer end `tx : Mutex<Option<mpsc::Sender<(i32, Buf)>>>`, reduced to its
presence, and the queue of pairs currently pushed on the channel. -/
structure IsolateState where
  tx : Option Unit
  chan : List (Int × Buf)
deriving DecidableEq, Repr

/-- `IsolateState::send_to_js`: locks `tx`, `assert!`s the sender is still
present (fatal — modelled `none` — when called after teardown), and pushes the
pair onto the channel. -/
def IsolateState.send_to_js (st : IsolateState) (req_id : Int) (buf : Buf) :
    Option IsolateState :=
  match st.tx with
  | some _ => some { st with chan := st.chan ++ [(req_id, buf)] }
  | none => none

/-- `Isolate::new`: the counter starts at 0, no deadline, no responses yet
(flag parsing, the deno dir and engine-handle creation are external). -/
def Isolate.new : Isolate :=
  { ntasks := 0, timeout_due := none, respond_log := [] }

/-- The shared state as built by `Isolate::new`: sender present, channel empty. -/
def IsolateState.new : IsolateState :=
  { tx := some (), chan := [] }

/-- `Isolate::respond`: calls `libdeno::deno_respond(handle, ptr, req_id, buf)`,
modelled as appending the reply to the respond log. -/
def Isolate.respond (iso : Isolate) (req_id : Int) (buf : Buf) : Isolate :=
  { iso with respond_log := iso.respond_log ++ [(req_id, buf)] }

/-- `Isolate::ntasks_increment`: `assert!(ntasks >= 0)` then increment. -/
def Isolate.ntasks_increment (iso : Isolate) : Option Isolate :=
  if 0 ≤ iso.ntasks then some { iso with ntasks := iso.ntasks + 1 } else none

/-- `Isolate::ntasks_decrement`: decrement then `assert!(ntasks >= 0)`
(fatal — `none` — when the counter would go negative). -/
def Isolate.ntasks_decrement (iso : Isolate) : Option Isolate :=
  if 0 ≤ iso.ntasks - 1 then some { iso with ntasks := iso.ntasks - 1 } else none

/-- `Isolate::complete_op`: decrement the counter (a received message exactly
corresponds to an async task completing), then respond into the engine with
the buffer — unconditionally, empty or not. -/
def Isolate.complete_op (iso : Isolate) (req_id : Int) (buf : Buf) : Option Isolate :=
  iso.ntasks_decrement.map fun iso2 => iso2.respond req_id buf

/-- `Isolate::timeout`: `deno_respond` with request id `-1` and the all-zero
`dummy_buf` (an empty payload). Touches nothing else. -/
def Isolate.timeout (iso : Isolate) : Isolate :=
  { iso with respond_log := iso.respond_log ++ [((-1 : Int), ([] : Buf))] }

/-- `Isolate::is_idle`: `ntasks == 0 && timeout_due.is_none()`. -/
def Isolate.is_idle (iso : Isolate) : Bool :=
  iso.ntasks == 0 && iso.timeout_due.isNone

/-- What one blocking wait on `rx` observed: a `(req_id, buf)` message, no
message before the wait ended (`RecvTimeoutError::Timeout` for a bounded wait;
an unbounded `recv` never returns without a message, so for it this means the
wait never ends), or a disconnected channel (`RecvError` /
`RecvTimeoutError::Disconnected`). -/
inductive ChanEvent
| msg (req_id : Int) (buf : Buf)
| noMsg
| disconnected
deriving DecidableEq, Repr

/-- The kind of wait one loop iteration performs on the channel:
`recv_timeout` with a computed duration, or a plain unbounded `recv`. -/
inductive Wait
| bounded (d : Nat)
| unbounded
deriving DecidableEq, Repr

/-- Outcome of one `event_loop` iteration body: continue with a new state,
panic (failed assert, unwrapped receive error), or block forever (unbounded
`recv` with nothing ever arriving). -/
inductive StepOutcome
| next (iso : Isolate)
| panicked
| blocked
deriving DecidableEq, Repr

/-- The body of one `event_loop` iteration, given `Instant::now()` and what the
wait observed. Matches the source `match self.timeout_due`: with a deadline,
the wait is bounded by `if due > now { due - now } else { 0 }` and a timed-out
wait performs the timeout action; without one, the wait is unbounded and only
a message (or a disconnection panic) can end it. -/
def event_loop_step (iso : Isolate) (now : Nat) (e : ChanEvent) : Wait × StepOutcome :=
  match iso.timeout_due with
  | some due =>
    (Wait.bounded (if now < due then due - now else 0),
      match e with
      | ChanEvent.msg req_id buf =>
        match iso.complete_op req_id buf with
        | some iso2 => StepOutcome.next iso2
        | none => StepOutcome.panicked
      | ChanEvent.noMsg => StepOutcome.next iso.timeout
      | ChanEvent.disconnected => StepOutcome.panicked)
  | none =>
    (Wait.unbounded,
      match e with
      | ChanEvent.msg req_id buf =>
        match iso.complete_op req_id buf with
        | some iso2 => StepOutcome.next iso2
        | none => StepOutcome.panicked
      | ChanEvent.noMsg => StepOutcome.blocked
      | ChanEvent.disconnected => StepOutcome.panicked)

/-- Result of running `event_loop` against a finite arrival schedule:
returned (the `while !self.is_idle()` guard failed), panicked, blocked
forever on an unbounded wait, or the schedule ran out with the loop still
live (`starved`, carrying the state reached). -/
inductive LoopResult
| returned (iso : Isolate)
| panicked
| blocked
| starved (iso : Isolate)
deriving DecidableEq, Repr

/-- `Isolate::event_loop`: `while !self.is_idle()`, run one iteration body per
schedule entry. -/
def event_loop (iso : Isolate) (evs : List (Nat × ChanEvent)) : LoopResult :=
  if iso.is_idle then LoopResult.returned iso
  else
    match evs with
    | [] => LoopResult.starved iso
    | (now, e) :: rest =>
      match (event_loop_step iso now e).2 with
      | StepOutcome.next iso2 => event_loop iso2 rest
      | StepOutcome.panicked => LoopResult.panicked
      | StepOutcome.blocked => LoopResult.blocked

/-- Model of the `Dispatch` function type
`fn(&mut Isolate, &[u8], &'static mut [u8]) -> (bool, Box<Op>)`: the host
classifier receives the isolate mutably, so it returns the (possibly updated)
isolate together with the `is_sync` flag and the boxed operation's eventual
resolution. -/
abbrev Dispatch := Isolate → Buf → Buf → Isolate × Bool × OpResult

/-- What `pre_dispatch` produces: the updated isolate, the (untouched) shared
state, and the tasks handed to `tokio::spawn` — each a request id paired with
the operation resolution its spawned task will observe. -/
structure PreDispatchResult where
  iso : Isolate
  st : IsolateState
  spawned : List (Int × OpResult)

/-- The C trampoline `pre_dispatch`: invoke the registered dispatch function;
on `is_sync`, drive the op to completion on this thread
(`tokio_util::block_on(op).unwrap()` — fatal on an op error) and respond only
when the buffer is non-empty; otherwise increment the counter and spawn the
task. -/
def pre_dispatch (dispatch : Dispatch) (iso : Isolate) (st : IsolateState)
    (req_id : Int) (control_slice data_slice : Buf) : Option PreDispatchResult :=
  match dispatch iso control_slice data_slice with
  | (iso1, is_sync, op) =>
    if is_sync then
      match op with
      | Except.ok buf =>
        if buf.length ≠ 0 then
          some { iso := iso1.respond req_id buf, st := st, spawned := [] }
        else
          some { iso := iso1, st := st, spawned := [] }
      | Except.error _ => none
    else
      match iso1.ntasks_increment with
      | some iso2 => some { iso := iso2, st := st, spawned := [(req_id, op)] }
      | none => none

/-- The spawned async task
`op.and_then(move |buf| { state.send_to_js(req_id, buf); Ok(()) }).map_err(|_| ())`:
on success, push the completion onto the channel; on error, `map_err(|_| ())`
drops the error and nothing is sent. -/
def spawned_task (st : IsolateState) (req_id : Int) (res : OpResult) :
    Option IsolateState :=
  match res with
  | Except.ok buf => st.send_to_js req_id buf
  | Except.error _ => some st

/-- `CString::new(bytes)`: fails (and the source's `.unwrap()` panics — `none`)
exactly when the bytes contain an interior NUL. -/
def cstring_new (bytes : Buf) : Option Buf :=
  if 0 ∈ bytes then none else some bytes

/-- `Isolate::execute`: convert filename and source to C strings (each
`.unwrap()`ed), run `libdeno::deno_execute` (its success flag and
last-exception text are external inputs), and return `Ok(())` or the
exception. -/
def execute (js_filename js_source : Buf) (engine_ok : Bool)
    (last_exception : Buf) : Option (Except Buf Unit) :=
  match cstring_new js_filename with
  | none => none
  | some _ =>
    match cstring_new js_source with
    | none => none
    | some _ =>
      if engine_ok then some (Except.ok ()) else some (Except.error last_exception)

/-! ## Helper lemmas -/

/-- Unfolding equation for `event_loop`. -/
theorem event_loop_eq (iso : Isolate) (evs : List (Nat × ChanEvent)) :
    event_loop iso evs =
      if iso.is_idle then LoopResult.returned iso
      else
        match evs with
        | [] => LoopResult.starved iso
        | (now, e) :: rest =>
          match (event_loop_step iso now e).2 with
          | StepOutcome.next iso2 => event_loop iso2 rest
          | StepOutcome.panicked => LoopResult.panicked
          | StepOutcome.blocked => LoopResult.blocked := by
  rw [event_loop.eq_def]

/-- When the loop guard holds (idle), `event_loop` returns at once. -/
theorem event_loop_of_idle (iso : Isolate) (evs : List (Nat × ChanEvent))
    (h : iso.is_idle = true) : event_loop iso evs = LoopResult.returned iso := by
  rw [event_loop_eq, h]
  simp

/-- Whatever `event_loop` returns is an idle state. -/
theorem event_loop_returned_idle (evs : List (Nat × ChanEvent)) :
    ∀ iso iso2 : Isolate,
      event_loop iso evs = LoopResult.returned iso2 → iso2.is_idle = true := by
  induction evs with
  | nil =>
    intro iso iso2 h
    rw [event_loop_eq] at h
    by_cases hi : iso.is_idle
    · simp only [hi, if_true] at h
      cases h
      exact hi
    · simp only [hi, if_false] at h
      cases h
  | cons ev rest ih =>
    intro iso iso2 h
    rw [event_loop_eq] at h
    by_cases hi : iso.is_idle
    · simp only [hi, if_true] at h
      cases h
      exact hi
    · simp only [hi, if_false] at h
      obtain ⟨now, e⟩ := ev
      revert h
      cases (event_loop_step iso now e).2 with
      | next iso3 => exact fun h => ih iso3 iso2 h
      | panicked => intro h; cases h
      | blocked => intro h; cases h

/-- When the loop guard fails, `event_loop` runs one iteration body and
continues with the rest of the schedule. -/
theorem event_loop_not_idle (iso : Isolate) (now : Nat) (e : ChanEvent)
    (evs : List (Nat × ChanEvent)) (h : iso.is_idle = false) :
    event_loop iso ((now, e) :: evs) =
      match (event_loop_step iso now e).2 with
      | StepOutcome.next iso2 => event_loop iso2 evs
      | StepOutcome.panicked => LoopResult.panicked
      | StepOutcome.blocked => LoopResult.blocked := by
  rw [event_loop_eq, h]
  simp

/-- `is_idle` in propositional form. -/
theorem is_idle_iff (iso : Isolate) :
    iso.is_idle = true ↔ iso.ntasks = 0 ∧ iso.timeout_due = none := by
  simp [Isolate.is_idle, Option.isNone_iff_eq_none]

/-! ## Claim theorems -/

/-- Claim C1: `event_loop` terminates exactly when the context is idle — it
returns immediately from an idle state and every state it returns is idle
(counter 0, no deadline); while not idle, each iteration waits on the channel
(a bounded `recv_timeout` for `max 0 (due - now)` when a deadline is set, an
unbounded `recv` otherwise) and the loop continues with the iteration's
outcome. -/
theorem event_loop_returns_iff_idle :
    (∀ (iso : Isolate) (evs : List (Nat × ChanEvent)),
      iso.is_idle = true → event_loop iso evs = LoopResult.returned iso) ∧
    (∀ (iso iso2 : Isolate) (evs : List (Nat × ChanEvent)),
      event_loop iso evs = LoopResult.returned iso2 → iso2.is_idle = true) ∧
    (∀ (iso : Isolate) (now : Nat) (e : ChanEvent) (evs : List (Nat × ChanEvent)),
      iso.is_idle = false →
      event_loop iso ((now, e) :: evs) =
        match (event_loop_step iso now e).2 with
        | StepOutcome.next iso2 => event_loop iso2 evs
        | StepOutcome.panicked => LoopResult.panicked
        | StepOutcome.blocked => LoopResult.blocked) ∧
    (∀ (iso : Isolate) (now : Nat) (e : ChanEvent),
      (iso.timeout_due = none → (event_loop_step iso now e).1 = Wait.unbounded) ∧
      ∀ due : Nat, iso.timeout_due = some due →
        (event_loop_step iso now e).1 =
          Wait.bounded (if now < due then due - now else 0)) ∧
    (∀ iso : Isolate, iso.is_idle = true ↔ iso.ntasks = 0 ∧ iso.timeout_due = none) := by
  refine ⟨event_loop_of_idle,
    fun iso iso2 evs h => event_loop_returned_idle evs iso iso2 h,
    event_loop_not_idle, ?_, is_idle_iff⟩
  intro iso now e
  constructor
  · intro h
    simp [event_loop_step, h]
  · intro due h
    simp [event_loop_step, h]

/-- Witness for C1 at a concrete idle state. -/
theorem event_loop_returns_iff_idle_witness :
    event_loop { ntasks := 0, timeout_due := none, respond_log := [] } [] =
      LoopResult.returned { ntasks := 0, timeout_due := none, respond_log := [] } :=
  event_loop_returns_iff_idle.1 { ntasks := 0, timeout_due := none, respond_log := [] }
    [] (by decide)

/-- Claim C4: the timeout action responds into the engine with the reserved
sentinel request id `-1` and the empty payload, leaving the outstanding
counter (and the deadline) unchanged; it is exactly what a timed-out bounded
wait of the event loop performs. -/
theorem timeout_sentinel_reply :
    (∀ iso : Isolate,
      (Isolate.timeout iso).respond_log = iso.respond_log ++ [((-1 : Int), ([] : Buf))] ∧
      (Isolate.timeout iso).ntasks = iso.ntasks ∧
      (Isolate.timeout iso).timeout_due = iso.timeout_due) ∧
    (∀ (iso : Isolate) (now due : Nat), iso.timeout_due = some due →
      (event_loop_step iso now ChanEvent.noMsg).2 =
        StepOutcome.next (Isolate.timeout iso)) := by
  constructor
  · intro iso
    exact ⟨rfl, rfl, rfl⟩
  · intro iso now due h
    simp [event_loop_step, h]

/-- Witness for C4 at a concrete state with a pending deadline. -/
theorem timeout_sentinel_reply_witness :
    (event_loop_step { ntasks := 0, timeout_due := some 3, respond_log := [] }
        1 ChanEvent.noMsg).2 =
      StepOutcome.next
        { ntasks := 0, timeout_due := some 3,
          respond_log := [((-1 : Int), ([] : Buf))] } := by
  simpa [Isolate.timeout] using
    timeout_sentinel_reply.2 { ntasks := 0, timeout_due := some 3, respond_log := [] }
      1 3 rfl

/-- Claim C7: `send_to_js` pushes the pair onto the channel when the producer
end is still present (preserving everything else), and is a fatal invariant
violation (modelled `none`) when called after teardown. -/
theorem send_to_js_spec :
    ∀ (st : IsolateState) (req_id : Int) (buf : Buf),
      (∀ t : Unit, st.tx = some t →
        st.send_to_js req_id buf =
          some { st with chan := st.chan ++ [(req_id, buf)] }) ∧
      (st.tx = none → st.send_to_js req_id buf = none) := by
  intro st req_id buf
  constructor
  · intro t h
    simp [IsolateState.send_to_js, h]
  · intro h
    simp [IsolateState.send_to_js, h]

/-- Witness for C7: one push on a live channel, one call after teardown. -/
theorem send_to_js_spec_witness :
    IsolateState.send_to_js { tx := some (), chan := [] } 1 [2] =
      some { tx := some (), chan := [(1, [2])] } ∧
    IsolateState.send_to_js { tx := none, chan := [] } 1 [2] = none := by
  constructor
  · simpa using (send_to_js_spec { tx := some (), chan := [] } 1 [2]).1 () rfl
  · exact (send_to_js_spec { tx := none, chan := [] } 1 [2]).2 rfl

/-- Claim C8: completions are delivered to the engine in channel-arrival
order: running the event loop from a deadline-free state whose counter equals
the number of queued completions returns with the respond log extended by
exactly those completions, in the order they arrived on the channel
(regardless of the order their operations were issued, i.e. of their request
ids). -/
theorem completions_delivered_in_channel_order :
    ∀ (msgs : List (Nat × Int × Buf)) (iso : Isolate),
      iso.timeout_due = none → iso.ntasks = (msgs.length : Int) →
      event_loop iso (msgs.map fun m => (m.1, ChanEvent.msg m.2.1 m.2.2)) =
        LoopResult.returned
          { ntasks := 0, timeout_due := none,
            respond_log := iso.respond_log ++ msgs.map fun m => m.2 } := by
  intro msgs
  induction msgs with
  | nil =>
    intro iso h1 h2
    simp only [List.length_nil, Nat.cast_zero] at h2
    have hidle : iso.is_idle = true := by
      simp [Isolate.is_idle, h1, h2]
    rw [event_loop_of_idle iso _ hidle]
    cases iso with
    | mk n t r => simp_all
  | cons m rest ih =>
    intro iso h1 h2
    have hlen : iso.ntasks = (rest.length : Int) + 1 := by
      rw [h2]
      push_cast [List.length_cons]
      ring
    have hne : iso.ntasks ≠ 0 := by omega
    have hnotidle : iso.is_idle = false := by
      simp [Isolate.is_idle, h1, hne]
    have hge : 0 ≤ iso.ntasks - 1 := by omega
    have hco : iso.complete_op m.2.1 m.2.2 =
        some { iso with ntasks := iso.ntasks - 1,
                        respond_log := iso.respond_log ++ [(m.2.1, m.2.2)] } := by
      simp [Isolate.complete_op, Isolate.ntasks_decrement, Isolate.respond, hge]
    rw [List.map_cons, event_loop_not_idle _ _ _ _ hnotidle]
    simp only [event_loop_step, h1, hco]
    rw [ih { ntasks := iso.ntasks - 1, timeout_due := none,
             respond_log := iso.respond_log ++ [(m.2.1, m.2.2)] }
      rfl (by simp only []; omega)]
    simp

/-- Witness for C8: op A (request id 1) is issued before op B (request id 2),
B's completion reaches the channel first, and the loop delivers B then A. -/
theorem completions_delivered_in_channel_order_witness :
    event_loop { ntasks := 2, timeout_due := none, respond_log := [] }
        [(0, ChanEvent.msg 2 [9]), (1, ChanEvent.msg 1 [8])] =
      LoopResult.returned
        { ntasks := 0, timeout_due := none, respond_log := [(2, [9]), (1, [8])] } := by
  simpa using
    completions_delivered_in_channel_order [(0, 2, [9]), (1, 1, [8])]
      { ntasks := 2, timeout_due := none, respond_log := [] } rfl (by decide)

/-- Claim C2: the outstanding-task counter starts at 0 on construction; an
asynchronous dispatch increments it exactly once and spawns exactly one task;
each delivered completion decrements it exactly once; and either assert —
decrementing to a negative value, or incrementing from one — is a fatal
invariant violation (modelled `none`). -/
theorem ntasks_counter_invariant :
    Isolate.new.ntasks = 0 ∧
    (∀ (d : Dispatch) (iso : Isolate) (st : IsolateState) (req_id : Int)
        (control data : Buf) (iso1 : Isolate) (op : OpResult),
      d iso control data = (iso1, false, op) → 0 ≤ iso1.ntasks →
      pre_dispatch d iso st req_id control data =
        some { iso := { iso1 with ntasks := iso1.ntasks + 1 }, st := st,
               spawned := [(req_id, op)] }) ∧
    (∀ (iso iso2 : Isolate) (req_id : Int) (buf : Buf),
      iso.complete_op req_id buf = some iso2 → iso2.ntasks = iso.ntasks - 1) ∧
    (∀ iso : Isolate, iso.ntasks ≤ 0 → iso.ntasks_decrement = none) ∧
    (∀ iso : Isolate, iso.ntasks < 0 → iso.ntasks_increment = none) := by
  refine ⟨rfl, ?_, ?_, ?_, ?_⟩
  · intro d iso st req_id control data iso1 op hd hge
    simp [pre_dispatch, hd, Isolate.ntasks_increment, hge]
  · intro iso iso2 req_id buf hco
    simp only [Isolate.complete_op, Isolate.ntasks_decrement, Isolate.respond,
      Option.map] at hco
    by_cases hge : 0 ≤ iso.ntasks - 1
    · simp only [hge, if_true] at hco
      cases hco
      rfl
    · simp only [hge, if_false] at hco
      cases hco
  · intro iso h
    simp only [Isolate.ntasks_decrement, ite_eq_right_iff]
    intro hge
    omega
  · intro iso h
    simp only [Isolate.ntasks_increment, ite_eq_right_iff]
    intro hge
    omega

/-- Witness for C2: one async dispatch from the freshly constructed state, and
one decrement from a zero counter (fatal). -/
theorem ntasks_counter_invariant_witness :
    Isolate.new.ntasks = 0 ∧
    pre_dispatch (fun iso _ _ => (iso, false, Except.ok [])) Isolate.new
        IsolateState.new 5 [] [] =
      some { iso := { ntasks := 1, timeout_due := none, respond_log := [] },
             st := IsolateState.new, spawned := [(5, Except.ok [])] } ∧
    Isolate.ntasks_decrement Isolate.new = none := by
  refine ⟨ntasks_counter_invariant.1, ?_, ?_⟩
  · simpa [Isolate.new] using
      ntasks_counter_invariant.2.1 (fun iso _ _ => (iso, false, Except.ok []))
        Isolate.new IsolateState.new 5 [] [] Isolate.new (Except.ok []) rfl
        (by decide)
  · exact ntasks_counter_invariant.2.2.2.1 Isolate.new (by decide)

/-- Claim C3 — code-bug evidence: the spawned async task applies
`map_err(|_| ())` to the operation, so an operation resolving to an error is
silently discarded: `send_to_js` is never called and the channel is left
unchanged, whereas a successful resolution does push its completion. -/
theorem async_error_discarded :
    spawned_task { tx := some (), chan := [] } 7 (Except.error "op failed") =
      some { tx := some (), chan := [] } ∧
    spawned_task { tx := some (), chan := [] } 7 (Except.ok [1]) =
      some { tx := some (), chan := [(7, [1])] } :=
  ⟨rfl, rfl⟩

/-- Claim C5: a completed asynchronous operation is delivered into the engine
unconditionally — even with an empty buffer — while a synchronous dispatch
delivers no reply for an empty result buffer and delivers a non-empty one
immediately within the same call. -/
theorem reply_delivery_empty_buffer_policy :
    (∀ (iso : Isolate) (req_id : Int) (buf : Buf), 1 ≤ iso.ntasks →
      iso.complete_op req_id buf =
        some { iso with ntasks := iso.ntasks - 1,
                        respond_log := iso.respond_log ++ [(req_id, buf)] }) ∧
    (∀ (d : Dispatch) (iso iso1 : Isolate) (st : IsolateState) (req_id : Int)
        (control data : Buf),
      d iso control data = (iso1, true, Except.ok []) →
      pre_dispatch d iso st req_id control data =
        some { iso := iso1, st := st, spawned := [] }) ∧
    (∀ (d : Dispatch) (iso iso1 : Isolate) (st : IsolateState) (req_id : Int)
        (control data buf : Buf),
      d iso control data = (iso1, true, Except.ok buf) → buf ≠ [] →
      pre_dispatch d iso st req_id control data =
        some { iso := iso1.respond req_id buf, st := st, spawned := [] }) := by
  refine ⟨?_, ?_, ?_⟩
  · intro iso req_id buf h
    have hge : 0 ≤ iso.ntasks - 1 := by omega
    simp [Isolate.complete_op, Isolate.ntasks_decrement, Isolate.respond, hge]
  · intro d iso iso1 st req_id control data hd
    simp [pre_dispatch, hd]
  · intro d iso iso1 st req_id control data buf hd hb
    have hlen : buf.length ≠ 0 := by
      simpa [List.length_eq_zero] using hb
    simp [pre_dispatch, hd, hlen]

/-- Witness for C5: an async completion with an empty buffer is still
delivered; a sync empty result sends nothing; a sync non-empty result is
delivered immediately. -/
theorem reply_delivery_empty_buffer_policy_witness :
    Isolate.complete_op { ntasks := 1, timeout_due := none, respond_log := [] } 4 [] =
      some { ntasks := 0, timeout_due := none, respond_log := [(4, [])] } ∧
    pre_dispatch (fun iso _ _ => (iso, true, Except.ok [])) Isolate.new
        IsolateState.new 4 [] [] =
      some { iso := Isolate.new, st := IsolateState.new, spawned := [] } ∧
    pre_dispatch (fun iso _ _ => (iso, true, Except.ok [9])) Isolate.new
        IsolateState.new 4 [] [] =
      some { iso := { ntasks := 0, timeout_due := none, respond_log := [(4, [9])] },
             st := IsolateState.new, spawned := [] } := by
  refine ⟨?_, ?_, ?_⟩
  · simpa using
      reply_delivery_empty_buffer_policy.1
        { ntasks := 1, timeout_due := none, respond_log := [] } 4 [] (by decide)
  · exact reply_delivery_empty_buffer_policy.2.1
      (fun iso _ _ => (iso, true, Except.ok [])) Isolate.new Isolate.new
      IsolateState.new 4 [] [] rfl
  · simpa [Isolate.new, Isolate.respond] using
      reply_delivery_empty_buffer_policy.2.2
        (fun iso _ _ => (iso, true, Except.ok [9])) Isolate.new Isolate.new
        IsolateState.new 4 [] [] [9] rfl (by decide)

/-- Claim C6: handling a request the dispatch function classified as
synchronous leaves the outstanding-task counter exactly as the classifier left
it, returns the shared state untouched, and spawns no task — so nothing is
ever pushed on the channel by a synchronous dispatch. (The dispatch function
receives the isolate mutably, so the counter is compared against its value
when the classifier returned.) -/
theorem sync_dispatch_no_counter_no_channel :
    ∀ (d : Dispatch) (iso iso1 : Isolate) (st : IsolateState) (req_id : Int)
      (control data : Buf) (op : OpResult) (r : PreDispatchResult),
      d iso control data = (iso1, true, op) →
      pre_dispatch d iso st req_id control data = some r →
      r.iso.ntasks = iso1.ntasks ∧ r.st = st ∧ r.spawned = [] := by
  intro d iso iso1 st req_id control data op r hd hp
  cases op with
  | ok buf =>
    simp only [pre_dispatch, hd, if_true] at hp
    split at hp
    · cases hp
      exact ⟨rfl, rfl, rfl⟩
    · cases hp
      exact ⟨rfl, rfl, rfl⟩
  | error e =>
    simp only [pre_dispatch, hd, if_true] at hp
    cases hp

/-- Witness for C6 at a concrete synchronous dispatch. -/
theorem sync_dispatch_no_counter_no_channel_witness :
    ({ iso := Isolate.respond Isolate.new 3 [7], st := IsolateState.new,
       spawned := [] } : PreDispatchResult).iso.ntasks = Isolate.new.ntasks ∧
    ({ iso := Isolate.respond Isolate.new 3 [7], st := IsolateState.new,
       spawned := [] } : PreDispatchResult).st = IsolateState.new ∧
    ({ iso := Isolate.respond Isolate.new 3 [7], st := IsolateState.new,
       spawned := [] } : PreDispatchResult).spawned = [] :=
  sync_dispatch_no_counter_no_channel (fun iso _ _ => (iso, true, Except.ok [7]))
    Isolate.new Isolate.new IsolateState.new 3 [] [] (Except.ok [7])
    { iso := Isolate.respond Isolate.new 3 [7], st := IsolateState.new,
      spawned := [] } rfl rfl

/-- Claim C9: a synchronous dispatch whose operation resolves to an error hits
the `.unwrap()` on the blocked-on result and panics (modelled `none`): the
error is neither returned to the caller nor delivered to script. -/
theorem sync_op_error_panics :
    ∀ (d : Dispatch) (iso iso1 : Isolate) (st : IsolateState) (req_id : Int)
      (control data : Buf) (e : String),
      d iso control data = (iso1, true, Except.error e) →
      pre_dispatch d iso st req_id control data = none := by
  intro d iso iso1 st req_id control data e hd
  simp [pre_dispatch, hd]

/-- Witness for C9 at a concrete erroring synchronous dispatch. -/
theorem sync_op_error_panics_witness :
    pre_dispatch (fun iso _ _ => (iso, true, Except.error "boom")) Isolate.new
        IsolateState.new 2 [] [] = none :=
  sync_op_error_panics (fun iso _ _ => (iso, true, Except.error "boom"))
    Isolate.new Isolate.new IsolateState.new 2 [] [] "boom" rfl

/-- Claim C10: `execute` panics (modelled `none`) exactly when the filename or
the source contains a NUL byte — the `CString::new(..).unwrap()` calls — and
otherwise proceeds, returning `Ok` or the engine's exception per the engine's
result, never an `Exception` for the NUL case. -/
theorem execute_nul_byte_panics :
    ∀ (f s : Buf) (engine_ok : Bool) (exn : Buf),
      ((0 ∈ f ∨ 0 ∈ s) → execute f s engine_ok exn = none) ∧
      (0 ∉ f → 0 ∉ s →
        execute f s engine_ok exn =
          if engine_ok then some (Except.ok ()) else some (Except.error exn)) := by
  intro f s engine_ok exn
  constructor
  · intro h
    cases h with
    | inl hf => simp [execute, cstring_new, hf]
    | inr hs =>
      by_cases hf : 0 ∈ f
      · simp [execute, cstring_new, hf]
      · simp [execute, cstring_new, hf, hs]
  · intro hf hs
    simp [execute, cstring_new, hf, hs]

/-- Witness for C10: a filename with an interior NUL panics; NUL-free inputs
run the engine. -/
theorem execute_nul_byte_panics_witness :
    execute [104, 0, 105] [] true [] = none ∧
    execute [104, 105] [] true [] = some (Except.ok ()) := by
  constructor
  · exact (execute_nul_byte_panics [104, 0, 105] [] true []).1 (Or.inl (by decide))
  · simpa using (execute_nul_byte_panics [104, 105] [] true []).2 (by decide) (by decide)

end DenoIsolate
